import Mathlib

/-!
# Verification of the bitcoin-rust core against its specification

Shallow embedding of the repository's core (`src/core/block.rs`,
`src/core/transaction.rs`, `src/core/consensus.rs`, `src/utils/hash.rs`,
`src/constants.rs`) and proofs of the spec's testable properties.

Modelling conventions:
- The external SHA-256 collaborator (`utils::hash::sha256_hash`, a wrapper
  around the secp256k1 crate) is modelled as an injective coding of its input
  string: two digests are equal exactly when their preimages are. This is the
  standard collision-free idealisation of a cryptographic hash; no property
  below relies on preimage resistance.
- `secp256k1::PublicKey` is opaque to the core: the core only ever renders
  it with `to_string()` and stores it. It is modelled as a `String`.
- Rust `u32`/`u128` fields (`timestamp`, `nonce`, counts, values) are
  modelled as `Nat`: the core performs no arithmetic on them, only
  construction and comparison, so no wraparound is reachable.
- The wall-clock collaborator `get_current_timestamp_ms` is modelled as an
  explicit `now`/`ts : Nat` parameter threaded to the functions that call it.
- Rust panics (the out-of-bounds `hashes[0]` in `calculate_merkle_root` on an
  empty list, and its propagation through `validate_block`,
  `validate_blockchain` and the receive path of `start_node`) are modelled as
  `Option.none`.
- The derived `Debug`/`Display` renderings used as hash preimages
  (`format!("BlockHeader({:?})", ...)`, `format!("Transaction({:?})", ...)`)
  are modelled as canonical renderings of all fields in declaration order;
  the exact delimiters of the Rust `Debug` output are immaterial to every
  property proved below.
-/

set_option maxRecDepth 400000

/-- `constants.rs`: `pub const SOFTWARE_VERSION: &str = "0.1.0";` -/
def SOFTWARE_VERSION : String := "0.1.0"

/-- `constants.rs`: `pub const TX_VERSION: u32 = 1;` -/
def TX_VERSION : Nat := 1

/-- `constants.rs`: `pub const COINBASE_VALUE: u128 = 50_000_000_000;` -/
def COINBASE_VALUE : Nat := 50000000000

/-- Opaque public identity; the core only renders and stores it. -/
abbrev PubKey := String

/-- A SHA-256 digest (`secp256k1::hashes::sha256::Hash`), carrying the
rendering the core compares and concatenates. -/
structure Digest where
  val : String
deriving DecidableEq

/-- `utils/hash.rs`: `sha256_hash(data: &str) -> sha256::Hash`, under the
collision-free idealisation described in the module header. -/
def sha256_hash (data : String) : Digest := ⟨data⟩

/-- `transaction.rs`: `pub struct TransactionInput`. -/
structure TransactionInput where
  previous_transaction_hash : String
  previous_transaction_index : Nat
  script_length : Nat
  script_sig : String
  sequence : Nat
deriving DecidableEq

/-- `transaction.rs`: `pub struct TransactionOutput`. -/
structure TransactionOutput where
  value : Nat
  script_length : Nat
  script_pub_key : String
  recipient_pub_key : PubKey
deriving DecidableEq

/-- `transaction.rs`: `pub struct Transaction`. -/
structure Transaction where
  transaction_version : Nat
  input_count : Nat
  inputs : List TransactionInput
  output_count : Nat
  outputs : List TransactionOutput
  lock_time : Nat
deriving DecidableEq

/-- Rendering of one `TransactionInput`, mirroring the derived `Debug`. -/
def inputString (i : TransactionInput) : String :=
  "TransactionInput(previous_transaction_hash: " ++ i.previous_transaction_hash ++
  ", previous_transaction_index: " ++ toString i.previous_transaction_index ++
  ", script_length: " ++ toString i.script_length ++
  ", script_sig: " ++ i.script_sig ++
  ", sequence: " ++ toString i.sequence ++ ")"

/-- Rendering of one `TransactionOutput`, mirroring the derived `Debug`. -/
def outputString (o : TransactionOutput) : String :=
  "TransactionOutput(value: " ++ toString o.value ++
  ", script_length: " ++ toString o.script_length ++
  ", script_pub_key: " ++ o.script_pub_key ++
  ", recipient_pub_key: " ++ o.recipient_pub_key ++ ")"

/-- Rendering of a list, mirroring the `Debug` output of a `Vec`. -/
def listString (f : α → String) (l : List α) : String :=
  "[" ++ String.intercalate (", ") (l.map f) ++ "]"

/-- `transaction.rs`: the `Display` impl,
`format!("Transaction({:?})", self)` — the canonical serialised form of a
transaction, a function of all its fields in order. -/
def txString (t : Transaction) : String :=
  "Transaction(transaction_version: " ++ toString t.transaction_version ++
  ", input_count: " ++ toString t.input_count ++
  ", inputs: " ++ listString inputString t.inputs ++
  ", output_count: " ++ toString t.output_count ++
  ", outputs: " ++ listString outputString t.outputs ++
  ", lock_time: " ++ toString t.lock_time ++ ")"

/-- `transaction.rs`: `Transaction::hash` = `sha256_hash(self.to_string())`. -/
def Transaction.hash (t : Transaction) : Digest :=
  sha256_hash (txString t)

/-- `transaction.rs`: `Transaction::new_coinbase_transaction`. -/
def Transaction.new_coinbase_transaction (script_pub_key : String)
    (recipient_pub_key : PubKey) : Transaction :=
  { transaction_version := TX_VERSION
    input_count := 0
    inputs := []
    output_count := 1
    outputs := [{ value := COINBASE_VALUE
                  script_length := 0
                  script_pub_key := script_pub_key
                  recipient_pub_key := recipient_pub_key }]
    lock_time := 0 }

/-- One pass of the `while` loop body of `calculate_merkle_root`
(`transaction.rs` lines 88-102): walk the current level two at a time
(`for i in (0..hashes.len()).step_by(2)`); the right element of the final
pair is the left element itself when `i + 1 < hashes.len()` fails. The
concatenation hashed is `format!("{}{}", left, right)`. -/
def merkle_level : List Digest → List Digest
  | [] => []
  | [x] => [sha256_hash (x.val ++ x.val)]
  | x :: y :: rest => sha256_hash (x.val ++ y.val) :: merkle_level rest

/-- The `while hashes.len() > 1` loop of `calculate_merkle_root`, rendered
with explicit fuel so that it is structurally recursive and computable by
the kernel. Each iteration at least halves a level of length ≥ 2, so a fuel
equal to the initial length always suffices (`merkle_loop_fuel_reduces`):
the fuel-out branch is unreachable from `calculate_merkle_root`. -/
def merkle_loop_fuel : Nat → List Digest → List Digest
  | 0, hashes => hashes
  | fuel + 1, hashes =>
    if hashes.length > 1 then merkle_loop_fuel fuel (merkle_level hashes)
    else hashes

/-- `transaction.rs`: `calculate_merkle_root`. The trailing `hashes[0]` on
the result panics when the input list is empty; the panic is `none`. -/
def calculate_merkle_root (transactions : List Transaction) : Option Digest :=
  let hashes := transactions.map Transaction.hash
  (merkle_loop_fuel hashes.length hashes).head?

/-- `block.rs`: `pub struct BlockHeader`. -/
structure BlockHeader where
  software_version : String
  previous_block_hash : Option Digest
  merkle_root : Digest
  timestamp : Nat
  difficulty_target : Nat
  nonce : Nat
deriving DecidableEq

/-- Rendering of the optional previous-block digest inside the header's
`Debug` output (`None` / `Some(...)`). -/
def optDigestString : Option Digest → String
  | none => "None"
  | some d => "Some(" ++ d.val ++ ")"

/-- `block.rs`: the `Display` impl for `BlockHeader`,
`format!("BlockHeader({:?})", self)` — the canonical serialised form of a
header, a function of all its fields in order. -/
def headerString (hd : BlockHeader) : String :=
  "BlockHeader(software_version: " ++ hd.software_version ++
  ", previous_block_hash: " ++ optDigestString hd.previous_block_hash ++
  ", merkle_root: " ++ hd.merkle_root.val ++
  ", timestamp: " ++ toString hd.timestamp ++
  ", difficulty_target: " ++ toString hd.difficulty_target ++
  ", nonce: " ++ toString hd.nonce ++ ")"

/-- `block.rs`: `pub struct Block`. -/
structure Block where
  header : BlockHeader
  transactions : List Transaction
  coinbase_transaction : Transaction
deriving DecidableEq

/-- `block.rs`: `Block::hash_block` =
`sha256_hash(self.header.to_string().as_str())`. -/
def Block.hash_block (b : Block) : Digest :=
  sha256_hash (headerString b.header)

/-- `block.rs`: `Block::new`. -/
def Block.new (software_version : String) (previous_block_hash : Option Digest)
    (merkle_root : Digest) (timestamp : Nat) (difficulty_target : Nat)
    (nonce : Nat) (transactions : List Transaction)
    (coinbase_transaction : Transaction) : Block :=
  { header := { software_version := software_version
                previous_block_hash := previous_block_hash
                merkle_root := merkle_root
                timestamp := timestamp
                difficulty_target := difficulty_target
                nonce := nonce }
    transactions := transactions
    coinbase_transaction := coinbase_transaction }

/-- `consensus.rs`: `Node::init_genesis_block`. The wall clock read
(`get_current_timestamp_ms()`) is the parameter `ts`. In the source the
`calculate_merkle_root` call cannot panic because the transaction list holds
the coinbase transaction (`calculate_merkle_root_cons_isSome`); the `getD`
default is unreachable. -/
def Node.init_genesis_block (miner_pub_key : PubKey) (ts : Nat) : Block :=
  let script_pub_key := miner_pub_key
  let coinbase_transaction :=
    Transaction.new_coinbase_transaction script_pub_key miner_pub_key
  let transactions := [coinbase_transaction]
  let merkle_root :=
    (calculate_merkle_root transactions).getD coinbase_transaction.hash
  Block.new SOFTWARE_VERSION none merkle_root ts 0 0 transactions
    coinbase_transaction

/-- `consensus.rs`: `Node::mine_new_block`. The wall clock read is the
parameter `ts`; as in `Node.init_genesis_block` the `getD` default is
unreachable because `all_transactions` starts with the coinbase. -/
def Node.mine_new_block (miner_pub_key : PubKey) (previous_block_hash : Digest)
    (transactions : List Transaction) (ts : Nat) : Block :=
  let script_pub_key := miner_pub_key
  let coinbase_transaction :=
    Transaction.new_coinbase_transaction script_pub_key miner_pub_key
  let all_transactions := coinbase_transaction :: transactions
  let merkle_root :=
    (calculate_merkle_root all_transactions).getD coinbase_transaction.hash
  Block.new SOFTWARE_VERSION (some previous_block_hash) merkle_root ts 0 0
    all_transactions coinbase_transaction

/-- `consensus.rs`: `Node::validate_block`, with the wall clock read as the
parameter `now`. The source computes `calculate_merkle_root(transactions)`
before running any check, so its panic (empty transaction list) pre-empts
every `return false`; hence the match comes first. -/
def Node.validate_block (now : Nat) (block : Block) : Option Bool :=
  let block_hash := sha256_hash (headerString block.header)
  match calculate_merkle_root block.transactions with
  | none => none
  | some merkle_root =>
    if block.hash_block ≠ block_hash then some false
    else if merkle_root ≠ block.header.merkle_root then some false
    else if block.header.timestamp > now then some false
    else some true

/-- The `for i in (1..blockchain.len()).rev()` loop of
`Node::validate_blockchain`: the blocks visited, in visiting order
(newest first, genesis excluded), short-circuiting on the first failure. -/
def Node.validate_blocks (now : Nat) : List Block → Option Bool
  | [] => some true
  | b :: rest =>
    match Node.validate_block now b with
    | none => none
    | some false => some false
    | some true => Node.validate_blocks now rest

/-- `consensus.rs`: `Node::validate_blockchain`. Indices
`(1..len).rev()` are the tail of the chain in reverse order. -/
def Node.validate_blockchain (now : Nat) (blockchain : List Block) :
    Option Bool :=
  Node.validate_blocks now (blockchain.drop 1).reverse

/-- `consensus.rs`: the peer-block branch of `Node::start_node`
(lines 64-77): clone the local chain, append the received block, accept the
append exactly when `validate_blockchain` passes on the candidate. A panic
inside validation (`none`) kills the worker thread before any push. -/
def Node.receive_block (now : Nat) (blockchain : List Block) (new_block : Block) :
    Option (List Block) :=
  let new_blockchain := blockchain ++ [new_block]
  match Node.validate_blockchain now new_blockchain with
  | none => none
  | some true => some new_blockchain
  | some false => some blockchain

/-- Written from the spec's words (§4.3, check 1 "always trivially true"):
`validate_block` with the self-hash comparison removed. Claim C8 states that
`Node.validate_block` coincides with this variant, i.e. the first check can
never produce `false`. -/
def validate_block_skip_selfhash (now : Nat) (block : Block) : Option Bool :=
  match calculate_merkle_root block.transactions with
  | none => none
  | some merkle_root =>
    if merkle_root ≠ block.header.merkle_root then some false
    else if block.header.timestamp > now then some false
    else some true

theorem merkle_level_length (l : List Digest) :
    (merkle_level l).length = (l.length + 1) / 2 := by
  induction l using merkle_level.induct with
  | case1 => simp [merkle_level]
  | case2 x => simp [merkle_level]
  | case3 x y rest ih => simp [merkle_level, ih]; omega

theorem merkle_level_ne_nil (l : List Digest) (h : l ≠ []) :
    merkle_level l ≠ [] := by
  have : 1 ≤ l.length := List.length_pos.mpr h
  have := merkle_level_length l
  intro hc
  rw [hc] at this
  simp at this
  omega

theorem merkle_loop_fuel_ne_nil (fuel : Nat) (l : List Digest) (h : l ≠ []) :
    merkle_loop_fuel fuel l ≠ [] := by
  induction fuel generalizing l with
  | zero => simpa [merkle_loop_fuel] using h
  | succ n ih =>
    rw [merkle_loop_fuel]
    by_cases hl : l.length > 1
    · simp only [hl, if_true]
      exact ih _ (merkle_level_ne_nil l h)
    · simpa [hl] using h

/-- Sanity: the fuel chosen in `calculate_merkle_root` always lets the loop
run to completion — the result is a single hash whenever the input has at
least one and at most `fuel + 1` elements, exactly the Rust loop's exit
condition. -/
theorem merkle_loop_fuel_reduces (fuel : Nat) (l : List Digest)
    (h : l.length ≤ fuel + 1) : (merkle_loop_fuel fuel l).length ≤ 1 := by
  induction fuel generalizing l with
  | zero => simpa [merkle_loop_fuel] using h
  | succ n ih =>
    rw [merkle_loop_fuel]
    by_cases hl : l.length > 1
    · simp only [hl, if_true]
      exact ih _ (by rw [merkle_level_length]; omega)
    · simpa [hl] using by omega

theorem calculate_merkle_root_cons_isSome (t : Transaction)
    (l : List Transaction) : (calculate_merkle_root (t :: l)).isSome := by
  have h := merkle_loop_fuel_ne_nil ((t :: l).map Transaction.hash).length
    ((t :: l).map Transaction.hash) (by simp)
  unfold calculate_merkle_root
  exact Option.isSome_iff_ne_none.mpr (fun hc => h (List.head?_eq_none_iff.mp hc))

theorem mine_root_eq (pk : PubKey) (prev : Digest) (txs : List Transaction)
    (ts : Nat) :
    calculate_merkle_root (Node.mine_new_block pk prev txs ts).transactions =
      some ((Node.mine_new_block pk prev txs ts).header.merkle_root) := by
  obtain ⟨r, hr⟩ := Option.isSome_iff_exists.mp
    (calculate_merkle_root_cons_isSome
      (Transaction.new_coinbase_transaction pk pk) txs)
  show calculate_merkle_root (Transaction.new_coinbase_transaction pk pk :: txs)
      = some ((calculate_merkle_root
          (Transaction.new_coinbase_transaction pk pk :: txs)).getD
        (Transaction.new_coinbase_transaction pk pk).hash)
  rw [hr]
  rfl

theorem genesis_root_eq (pk : PubKey) (ts : Nat) :
    calculate_merkle_root (Node.init_genesis_block pk ts).transactions =
      some ((Node.init_genesis_block pk ts).header.merkle_root) := by
  obtain ⟨r, hr⟩ := Option.isSome_iff_exists.mp
    (calculate_merkle_root_cons_isSome
      (Transaction.new_coinbase_transaction pk pk) [])
  show calculate_merkle_root [Transaction.new_coinbase_transaction pk pk]
      = some ((calculate_merkle_root
          [Transaction.new_coinbase_transaction pk pk]).getD
        (Transaction.new_coinbase_transaction pk pk).hash)
  rw [hr]
  rfl

theorem validate_block_eq_true (now : Nat) (b : Block) (r : Digest)
    (hr : calculate_merkle_root b.transactions = some r)
    (hroot : r = b.header.merkle_root)
    (hts : b.header.timestamp ≤ now) :
    Node.validate_block now b = some true := by
  have hlt : ¬ (b.header.timestamp > now) := by omega
  unfold Node.validate_block
  rw [hr]
  subst hroot
  simp [Block.hash_block, hlt]

theorem validate_block_eq_false_of_root (now : Nat) (b : Block) (r : Digest)
    (hr : calculate_merkle_root b.transactions = some r)
    (hroot : r ≠ b.header.merkle_root) :
    Node.validate_block now b = some false := by
  unfold Node.validate_block
  rw [hr]
  simp [Block.hash_block, hroot]

theorem validate_mined (pk : PubKey) (prev : Digest) (txs : List Transaction)
    (ts now : Nat) (h : ts ≤ now) :
    Node.validate_block now (Node.mine_new_block pk prev txs ts) = some true :=
  validate_block_eq_true now _ _ (mine_root_eq pk prev txs ts) rfl h

theorem validate_genesis (pk : PubKey) (ts now : Nat) (h : ts ≤ now) :
    Node.validate_block now (Node.init_genesis_block pk ts) = some true :=
  validate_block_eq_true now _ _ (genesis_root_eq pk ts) rfl h

theorem validate_blocks_all_true (now : Nat) (l : List Block)
    (h : ∀ b ∈ l, Node.validate_block now b = some true) :
    Node.validate_blocks now l = some true := by
  induction l with
  | nil => rfl
  | cons b rest ih =>
    rw [Node.validate_blocks, h b (by simp)]
    exact ih (fun x hx => h x (by simp [hx]))

theorem merkle_level_append_singleton : ∀ (l : List Digest) (x : Digest),
    l.length % 2 = 0 →
    merkle_level (l ++ [x]) = merkle_level l ++ [sha256_hash (x.val ++ x.val)] := by
  intro l x
  induction l using merkle_level.induct with
  | case1 => intro _; simp [merkle_level]
  | case2 y => intro h; simp at h
  | case3 y z rest ih =>
    intro h
    simp only [List.length_cons] at h
    simp only [List.cons_append, merkle_level, List.append_eq]
    rw [ih (by omega)]

/-- C3: on the empty transaction list `calculate_merkle_root` does not
return a digest (the source's `hashes[0]` indexes an empty vector, modelled
as `none`); under the precondition that the list is non-empty the
out-of-bounds access is unreachable and the function totally returns a
digest. -/
theorem merkle_root_empty_none_nonempty_some :
    calculate_merkle_root [] = none ∧
    ∀ (t : Transaction) (l : List Transaction),
      (calculate_merkle_root (t :: l)).isSome :=
  ⟨rfl, fun t l => calculate_merkle_root_cons_isSome t l⟩

/-- C7: the Merkle root of a single-transaction list is that transaction's
own hash — the `while` loop body never executes. -/
theorem merkle_root_single_transaction (tx : Transaction) :
    calculate_merkle_root [tx] = some tx.hash := rfl

/-- C6: in `calculate_merkle_root`, a level of odd length pairs its last
unpaired hash with itself (the concatenation hashed is that hash followed by
itself) rather than promoting it; and levels pair adjacent hashes
left-to-right until one hash remains, as the hand-computed three-transaction
root shows. -/
theorem merkle_duplicate_last (l : List Digest) (x : Digest)
    (h : l.length % 2 = 0) :
    merkle_level (l ++ [x]) = merkle_level l ++ [sha256_hash (x.val ++ x.val)] ∧
    ∀ t1 t2 t3 : Transaction,
      calculate_merkle_root [t1, t2, t3] =
        some (sha256_hash ((sha256_hash (t1.hash.val ++ t2.hash.val)).val ++
          (sha256_hash (t3.hash.val ++ t3.hash.val)).val)) :=
  ⟨merkle_level_append_singleton l x h, fun _ _ _ => rfl⟩

/-- Witness for C6 at a concrete even-length level plus unpaired hash. -/
theorem merkle_duplicate_last_witness :
    merkle_level ([⟨"a"⟩, ⟨"b"⟩] ++ [⟨"c"⟩]) =
      merkle_level [⟨"a"⟩, ⟨"b"⟩] ++ [sha256_hash ("c" ++ "c")] :=
  (merkle_duplicate_last [⟨"a"⟩, ⟨"b"⟩] ⟨"c"⟩ (by decide)).1

/-- C4: a block freshly produced by `mine_new_block` or
`init_genesis_block` passes `validate_block`, provided the clock at
validation is at or after the creation timestamp. -/
theorem validate_block_fresh_blocks (pk : PubKey) (prev : Digest)
    (txs : List Transaction) (ts now : Nat) (h : ts ≤ now) :
    Node.validate_block now (Node.mine_new_block pk prev txs ts) = some true ∧
    Node.validate_block now (Node.init_genesis_block pk ts) = some true :=
  ⟨validate_mined pk prev txs ts now h, validate_genesis pk ts now h⟩

/-- Witness for C4 at a concrete miner key, previous hash and clock. -/
theorem validate_block_fresh_blocks_witness :
    Node.validate_block 5 (Node.mine_new_block ("k") (sha256_hash ("p")) [] 3) =
      some true ∧
    Node.validate_block 5 (Node.init_genesis_block ("k") 3) = some true :=
  validate_block_fresh_blocks ("k") (sha256_hash ("p")) [] 3 5 (by decide)

/-- C1 (amended): `validate_blockchain` returns `true` on any chain whose
non-genesis blocks each come from a `mine_new_block` call with a creation
timestamp at or before the validation clock — whatever previous-block hash
each call was given. Chains built by repeated tip-extending calls are the
special case where each `prev` is the prior block's hash; but since
`validate_blockchain` never inspects `previous_block_hash`, a mis-linked
block does not make it return `false` (see the counterexample). -/
theorem validate_blockchain_mined_blocks (now : Nat) (chain : List Block)
    (h : ∀ b ∈ chain.drop 1, ∃ pk prev txs ts,
        ts ≤ now ∧ b = Node.mine_new_block pk prev txs ts) :
    Node.validate_blockchain now chain = some true := by
  unfold Node.validate_blockchain
  refine validate_blocks_all_true now _ (fun b hb => ?_)
  obtain ⟨pk, prev, txs, ts, hts, rfl⟩ := h b (List.mem_reverse.mp hb)
  exact validate_mined pk prev txs ts now hts

/-- Witness for C1's amended theorem: a two-block chain built by one
genesis call and one tip-extending mine call validates. -/
theorem validate_blockchain_mined_blocks_witness :
    Node.validate_blockchain 3
      [Node.init_genesis_block ("k") 1,
       Node.mine_new_block ("k") ((Node.init_genesis_block ("k") 1).hash_block)
         [] 2] = some true :=
  validate_blockchain_mined_blocks 3 _ (by
    intro b hb
    simp only [List.drop_succ_cons, List.drop_zero, List.mem_singleton] at hb
    exact ⟨"k", (Node.init_genesis_block ("k") 1).hash_block, [], 2,
      by decide, hb⟩)

/-- Counterexample to C1 as stated: a three-block chain whose third block's
`previous_block_hash` points at the genesis block rather than at block 1 —
so linkage fails at index 2 — yet `validate_blockchain` returns `true`:
the function never checks chain linkage. -/
theorem validate_blockchain_ignores_linkage :
    ((Node.mine_new_block ("k")
        ((Node.init_genesis_block ("k") 1).hash_block) [] 3).header.previous_block_hash ≠
      some ((Node.mine_new_block ("k")
        ((Node.init_genesis_block ("k") 1).hash_block) [] 2).hash_block)) ∧
    Node.validate_blockchain 3
      [Node.init_genesis_block ("k") 1,
       Node.mine_new_block ("k") ((Node.init_genesis_block ("k") 1).hash_block) [] 2,
       Node.mine_new_block ("k") ((Node.init_genesis_block ("k") 1).hash_block) [] 3] =
      some true := by
  constructor
  · decide
  · decide

/-- C2 (amended): for every block produced by `mine_new_block` or
`init_genesis_block`, changing `merkle_root` to any different value makes
`validate_block` return `false`; but the other header fields are not
covered by any check — changing `nonce` (for example) leaves
`validate_block` at `true` for either constructor's block, because the
self-hash check recomputes both of its sides from the current header. -/
theorem validate_block_merkle_tamper_detected (pk : PubKey) (prev : Digest)
    (txs : List Transaction) (ts now : Nat) (m : Digest) (n : Nat)
    (h : ts ≤ now)
    (hm : m ≠ (Node.mine_new_block pk prev txs ts).header.merkle_root)
    (hg : m ≠ (Node.init_genesis_block pk ts).header.merkle_root) :
    Node.validate_block now
      { Node.mine_new_block pk prev txs ts with
        header := { (Node.mine_new_block pk prev txs ts).header with
          merkle_root := m } } = some false ∧
    Node.validate_block now
      { Node.init_genesis_block pk ts with
        header := { (Node.init_genesis_block pk ts).header with
          merkle_root := m } } = some false ∧
    Node.validate_block now
      { Node.mine_new_block pk prev txs ts with
        header := { (Node.mine_new_block pk prev txs ts).header with
          nonce := n } } = some true ∧
    Node.validate_block now
      { Node.init_genesis_block pk ts with
        header := { (Node.init_genesis_block pk ts).header with
          nonce := n } } = some true := by
  refine ⟨?_, ?_, ?_, ?_⟩
  · exact validate_block_eq_false_of_root now _
      ((Node.mine_new_block pk prev txs ts).header.merkle_root)
      (mine_root_eq pk prev txs ts) (Ne.symm hm)
  · exact validate_block_eq_false_of_root now _
      ((Node.init_genesis_block pk ts).header.merkle_root)
      (genesis_root_eq pk ts) (Ne.symm hg)
  · exact validate_block_eq_true now _
      ((Node.mine_new_block pk prev txs ts).header.merkle_root)
      (mine_root_eq pk prev txs ts) rfl h
  · exact validate_block_eq_true now _
      ((Node.init_genesis_block pk ts).header.merkle_root)
      (genesis_root_eq pk ts) rfl h

/-- Witness for C2's amended theorem at concrete mined and genesis blocks,
with a tampered root and a tampered nonce for each. -/
theorem validate_block_merkle_tamper_detected_witness :
    Node.validate_block 1
      { Node.mine_new_block ("k") (sha256_hash ("p")) [] 1 with
        header := { (Node.mine_new_block ("k") (sha256_hash ("p")) [] 1).header with
          merkle_root := ⟨"m"⟩ } } = some false ∧
    Node.validate_block 1
      { Node.init_genesis_block ("k") 1 with
        header := { (Node.init_genesis_block ("k") 1).header with
          merkle_root := ⟨"m"⟩ } } = some false ∧
    Node.validate_block 1
      { Node.mine_new_block ("k") (sha256_hash ("p")) [] 1 with
        header := { (Node.mine_new_block ("k") (sha256_hash ("p")) [] 1).header with
          nonce := 7 } } = some true ∧
    Node.validate_block 1
      { Node.init_genesis_block ("k") 1 with
        header := { (Node.init_genesis_block ("k") 1).header with
          nonce := 7 } } = some true :=
  validate_block_merkle_tamper_detected ("k") (sha256_hash ("p")) [] 1 1 ⟨"m"⟩ 7
    (by decide) (by decide) (by decide)

/-- Counterexample to C2 as stated: changing the `nonce` header field of a
fresh genesis block to a different value leaves `validate_block` at `true`. -/
theorem validate_block_nonce_tamper_undetected :
    Node.validate_block 5
      { Node.init_genesis_block ("k") 5 with
        header := { (Node.init_genesis_block ("k") 5).header with
          nonce := 1 } } = some true ∧
    (1 : Nat) ≠ (Node.init_genesis_block ("k") 5).header.nonce := by
  constructor
  · decide
  · decide

/-- C5: when the candidate chain (local chain plus the received block) fails
`validate_blockchain`, the receive path of `start_node` leaves the local
chain exactly as it was: the candidate is dropped whole. -/
theorem receive_block_rejected_unchanged (now : Nat) (chain : List Block)
    (b : Block) (h : Node.validate_blockchain now (chain ++ [b]) = some false) :
    Node.receive_block now chain b = some chain := by
  show (match Node.validate_blockchain now (chain ++ [b]) with
    | none => none
    | some true => some (chain ++ [b])
    | some false => some chain) = some chain
  rw [h]

/-- Witness for C5: a peer block with a future timestamp is rejected and the
single-block local chain is unchanged. -/
theorem receive_block_rejected_unchanged_witness :
    Node.receive_block 1 [Node.init_genesis_block ("k") 1]
      (Node.mine_new_block ("k") ((Node.init_genesis_block ("k") 1).hash_block) [] 5) =
      some [Node.init_genesis_block ("k") 1] :=
  receive_block_rejected_unchanged 1 _ _ (by decide)

/-- C8: the first check of `validate_block` recomputes the self-hash from
the header and compares it with `hash_block()`; both sides are the same pure
function of the header, so the check always succeeds and `validate_block`
coincides with the variant that omits it (`validate_block_skip_selfhash`). -/
theorem validate_block_selfhash_check_vacuous (now : Nat) (b : Block) :
    b.hash_block = sha256_hash (headerString b.header) ∧
    Node.validate_block now b = validate_block_skip_selfhash now b := by
  refine ⟨rfl, ?_⟩
  unfold Node.validate_block validate_block_skip_selfhash
  cases calculate_merkle_root b.transactions with
  | none => rfl
  | some r => simp [Block.hash_block]

/-- C9: `Transaction::hash` is deterministic — it is a pure function of the
transaction's field values, so two independently constructed transactions
with identical fields hash to the same digest. -/
theorem transaction_hash_deterministic (t1 t2 : Transaction)
    (h1 : t1.transaction_version = t2.transaction_version)
    (h2 : t1.input_count = t2.input_count)
    (h3 : t1.inputs = t2.inputs)
    (h4 : t1.output_count = t2.output_count)
    (h5 : t1.outputs = t2.outputs)
    (h6 : t1.lock_time = t2.lock_time) :
    t1.hash = t2.hash := by
  have ht : t1 = t2 := by
    cases t1
    cases t2
    congr 1
  rw [ht]

/-- Witness for C9: a coinbase-constructed transaction and an independently
written field-equal literal hash identically. -/
theorem transaction_hash_deterministic_witness :
    (Transaction.new_coinbase_transaction ("s") ("k")).hash =
      (Transaction.mk 1 0 [] 1 [TransactionOutput.mk 50000000000 0 ("s") ("k")] 0).hash :=
  transaction_hash_deterministic _ _ rfl rfl rfl rfl rfl rfl

/-- C10: `validate_block` never reads `header.previous_block_hash` or the
separately stored `coinbase_transaction`: two blocks equal in every other
field get the same validation result at the same clock. In particular
validation inspects neither chain linkage nor whether the coinbase
reference matches `transactions[0]`. -/
theorem validate_block_ignores_linkage_fields (now : Nat) (b1 b2 : Block)
    (_hsv : b1.header.software_version = b2.header.software_version)
    (hmr : b1.header.merkle_root = b2.header.merkle_root)
    (hts : b1.header.timestamp = b2.header.timestamp)
    (_hdt : b1.header.difficulty_target = b2.header.difficulty_target)
    (_hn : b1.header.nonce = b2.header.nonce)
    (htx : b1.transactions = b2.transactions) :
    Node.validate_block now b1 = Node.validate_block now b2 := by
  unfold Node.validate_block
  rw [htx]
  cases calculate_merkle_root b2.transactions with
  | none => rfl
  | some r => simp [Block.hash_block, hmr, hts]

/-- Witness for C10: a genesis block, and the same block with a different
`previous_block_hash` and an unrelated `coinbase_transaction`, validate
identically. -/
theorem validate_block_ignores_linkage_fields_witness :
    Node.validate_block 1 (Node.init_genesis_block ("k") 1) =
      Node.validate_block 1
        { Node.init_genesis_block ("k") 1 with
          header := { (Node.init_genesis_block ("k") 1).header with
            previous_block_hash := some (sha256_hash ("x")) },
          coinbase_transaction := Transaction.new_coinbase_transaction ("s") ("q") } :=
  validate_block_ignores_linkage_fields 1 _ _ rfl rfl rfl rfl rfl rfl
